import Mathlib

/-!
Verification of the VM lifecycle orchestrator and remote-access provisioning
transaction (repository `yanrbts/vm`), shallowly embedded in Lean 4.

Python sources embedded here:
- `src/vms/vm_libvirt_manager.py` (`LibvirtManager`): create / delete / list
  and status normalization;
- `src/vms/guacamodel.py` (`GuacamoleClient`): base64 link encoding and the
  three-step grant transaction;
- `src/app3.py` (`index`): the reconciliation pass over the record store.

External effects (libvirt calls, privileged shell commands, HTTP calls to the
gateway, filesystem probes) are modelled by environment records holding the
outcome of each call site, and each embedded operation returns both its result
and the ordered list of side-effecting operations it performed.
-/

namespace VmRepo

/-! ## Base64 encoding (`src/vms/guacamodel.py`, `strtobase64`)

Python's `base64.b64encode` over byte lists (bytes as `Nat < 256`), using the
standard alphabet, producing the usual `=` padding. -/

/-- The standard base64 alphabet used by Python's `base64.b64encode`. -/
def stdB64Alphabet : List Char :=
  ['A', 'B', 'C', 'D', 'E', 'F', 'G', 'H', 'I', 'J', 'K', 'L', 'M',
   'N', 'O', 'P', 'Q', 'R', 'S', 'T', 'U', 'V', 'W', 'X', 'Y', 'Z',
   'a', 'b', 'c', 'd', 'e', 'f', 'g', 'h', 'i', 'j', 'k', 'l', 'm',
   'n', 'o', 'p', 'q', 'r', 's', 't', 'u', 'v', 'w', 'x', 'y', 'z',
   '0', '1', '2', '3', '4', '5', '6', '7', '8', '9', '+', '/']

/-- The URL-safe base64 alphabet (`base64.urlsafe_b64encode`): `-` and `_`
replace `+` and `/`. The spec's link composition step names this variant. -/
def urlB64Alphabet : List Char :=
  ['A', 'B', 'C', 'D', 'E', 'F', 'G', 'H', 'I', 'J', 'K', 'L', 'M',
   'N', 'O', 'P', 'Q', 'R', 'S', 'T', 'U', 'V', 'W', 'X', 'Y', 'Z',
   'a', 'b', 'c', 'd', 'e', 'f', 'g', 'h', 'i', 'j', 'k', 'l', 'm',
   'n', 'o', 'p', 'q', 'r', 's', 't', 'u', 'v', 'w', 'x', 'y', 'z',
   '0', '1', '2', '3', '4', '5', '6', '7', '8', '9', '-', '_']

/-- Character for a 6-bit value, standard alphabet. -/
def b64Char (n : Nat) : Char := stdB64Alphabet.getD n '='

/-- Character for a 6-bit value, URL-safe alphabet. -/
def urlB64Char (n : Nat) : Char := urlB64Alphabet.getD n '='

/-- 6-bit value of a base64 character (standard alphabet). -/
def b64val (c : Char) : Nat := stdB64Alphabet.indexOf c

/-- `base64.b64encode` on a byte list: groups of three bytes become four
alphabet characters; a final group of two or one byte is padded with `=`. -/
def b64encodeList : List Nat → List Char
  | a :: b :: c :: rest =>
      b64Char (a / 4) :: b64Char (a % 4 * 16 + b / 16) ::
      b64Char (b % 16 * 4 + c / 64) :: b64Char (c % 64) :: b64encodeList rest
  | [a, b] => [b64Char (a / 4), b64Char (a % 4 * 16 + b / 16), b64Char (b % 16 * 4), '=']
  | [a] => [b64Char (a / 4), b64Char (a % 4 * 16), '=', '=']
  | [] => []

/-- `base64.urlsafe_b64encode` on a byte list: same grouping, URL-safe
alphabet. Stated from the spec's wording of the link composition step, for
comparison with the source's `b64encodeList`. -/
def urlsafeB64encodeList : List Nat → List Char
  | a :: b :: c :: rest =>
      urlB64Char (a / 4) :: urlB64Char (a % 4 * 16 + b / 16) ::
      urlB64Char (b % 16 * 4 + c / 64) :: urlB64Char (c % 64) :: urlsafeB64encodeList rest
  | [a, b] => [urlB64Char (a / 4), urlB64Char (a % 4 * 16 + b / 16), urlB64Char (b % 16 * 4), '=']
  | [a] => [urlB64Char (a / 4), urlB64Char (a % 4 * 16), '=', '=']
  | [] => []

/-- Base64 decoding of 6-bit values back to bytes (used to state the
"re-pad then decode" property of the produced link fragment). -/
def b64decodeVals : List Nat → List Nat
  | a :: b :: c :: d :: rest =>
      (a * 4 + b / 16) :: (b % 16 * 16 + c / 4) :: (c % 4 * 64 + d) :: b64decodeVals rest
  | [a, b, c] => [a * 4 + b / 16, b % 16 * 16 + c / 4]
  | [a, b] => [a * 4 + b / 16]
  | _ => []

/-- Decode a base64 string: ignore `=` padding, map characters to 6-bit
values, regroup into bytes. -/
def b64decode (s : String) : List Nat :=
  b64decodeVals ((s.toList.filter (fun ch => ch ≠ '=')).map b64val)

/-- Python's `str.rstrip` restricted to the `'='` character: remove all
trailing `=` characters. -/
def stripB64Padding (cs : List Char) : List Char :=
  (cs.reverse.dropWhile (fun ch => ch = '=')).reverse

/-- Re-pad a stripped base64 string to a multiple of four characters with
`=`, as the spec's determinism property describes before decoding. -/
def repadB64 (s : String) : String :=
  s ++ String.mk (List.replicate ((4 - s.length % 4) % 4) '=')

/-- The fixed suffix bytes `b"\x00c\x00postgresql"` appended by
`strtobase64` (the gateway's data-source discriminator). -/
def guacSuffixBytes : List Nat :=
  [0, 99, 0, 112, 111, 115, 116, 103, 114, 101, 115, 113, 108]

/-- `GuacamoleClient.strtobase64`: append the fixed suffix bytes to the
UTF-8 bytes of the connection id, `base64.b64encode` the result and strip
trailing `=`. The argument is the byte list of the Python `str` id. -/
def strtobase64 (idBytes : List Nat) : String :=
  String.mk (stripB64Padding (b64encodeList (idBytes ++ guacSuffixBytes)))

/-- The fragment the spec's words prescribe: URL-safe base64 of the id bytes
followed by the fixed suffix, trailing `=` stripped. Stated from the spec for
comparison with `strtobase64`. -/
def specUrlsafeFragment (idBytes : List Nat) : String :=
  String.mk (stripB64Padding (urlsafeB64encodeList (idBytes ++ guacSuffixBytes)))

/-- Step 4 of `grant_user_permissions`: the deep link
`method://hostname` ++ `urlPath` ++ `#/client/` ++ `strtobase64 connId`. -/
def guacClientUrl (method hostname urlPath : String) (connIdBytes : List Nat) : String :=
  method ++ "://" ++ hostname ++ urlPath ++ "#/client/" ++ strtobase64 connIdBytes

/-! ## Status normalization (`_get_domain_details`, both variants) -/

/-- The `status_map` dictionary lookup with default `'Unknown State'`, over
the libvirt domain state codes (`VIR_DOMAIN_NOSTATE = 0` …
`VIR_DOMAIN_PMSUSPENDED = 7`). -/
def domainStatusString (code : Nat) : String :=
  match code with
  | 0 => "No State"
  | 1 => "Running"
  | 2 => "Blocked"
  | 3 => "Paused"
  | 4 => "Shutting Down"
  | 5 => "Shut Off"
  | 6 => "Crashed"
  | 7 => "Suspended"
  | _ => "Unknown State"

/-! ## Port allocation (`create_vm_from_template`, the VNC-port probe loop)

The Python loop `while True: try connect; on success port += 1; on
refusal/timeout break` starting at 5900. `listening q = true` models a TCP
connect on `127.0.0.1:q` succeeding; `false` models refusal or timeout. The
source loop has no bound; `fuel` makes the embedding total, with `none`
standing for the loop not having terminated within `fuel` probes. -/

/-- The probe loop body: increment past listening ports, return the first
non-listening port. -/
def findFreePort (listening : Nat → Bool) : Nat → Nat → Option Nat
  | 0, _ => none
  | fuel + 1, p => if listening p then findFreePort listening fuel (p + 1) else some p

/-- The VNC port probe as invoked by Create: start at port 5900. -/
def allocateVncPort (listening : Nat → Bool) (fuel : Nat) : Option Nat :=
  findFreePort listening fuel 5900

/-! ## Create (`LibvirtManager.create_vm_from_template`, src/vms variant) -/

/-- Path of the overlay disk: `os.path.join(VM_STORAGE_POOL_PATH,
f"{vm_name}.qcow2")` with the configured pool path. -/
def newDiskPath (vmName : String) : String :=
  "/var/lib/libvirt/images/" ++ vmName ++ ".qcow2"

/-- Outcome of `conn.defineXML`: it can raise `libvirtError`, return `None`,
or return a domain handle. -/
inductive DefineRes
  | raisesErr (msg : String)
  | returnsNone
  | returnsDom
  deriving DecidableEq

/-- Outcome of `dom.create()` (domain start): raise or succeed. -/
inductive StartRes
  | raisesErr (msg : String)
  | ok
  deriving DecidableEq

/-- Environment of one `create_vm_from_template` invocation: the outcome of
every external call site, in source order. -/
structure CreateEnv where
  /-- `self._reconnect()` returned a live handle. -/
  connOk : Bool
  /-- `os.path.exists(BASE_IMAGE_PATH)`. -/
  baseImageExists : Bool
  /-- `conn.lookupByName(vm_name)` succeeded (the name is already known). -/
  nameKnown : Bool
  /-- `os.path.exists(new_disk_path)` before cloning (stale overlay). -/
  staleOverlay : Bool
  /-- `rm -f` on the stale overlay succeeded. -/
  rmStaleOk : Bool
  rmStaleMsg : String
  /-- `qemu-img create` succeeded. -/
  cloneOk : Bool
  cloneMsg : String
  /-- `chown root:libvirt` on the overlay succeeded. -/
  chownOk : Bool
  chownMsg : String
  /-- `chmod g+rw` on the overlay succeeded. -/
  chmodOk : Bool
  chmodMsg : String
  /-- TCP connect probe outcomes for the VNC port loop. -/
  listening : Nat → Bool
  portFuel : Nat
  /-- Outcome of `conn.defineXML(xml_config)`. -/
  defineRes : DefineRes
  /-- Outcome of `dom.create()`. -/
  startRes : StartRes
  /-- `rm -f` in the cleanup handler succeeded. -/
  rmCleanupOk : Bool
  rmCleanupMsg : String

/-- The privileged external commands Create can run, in the order executed
(`_run_system_command_sudo` call sites). -/
inductive CreateOp
  | rmForce (path : String)
  | qemuImgCreate (basePath destPath : String)
  | chownCmd (ownerGroup path : String)
  | chmodCmd (mode path : String)
  | defineDomain
  | startDomain
  deriving DecidableEq

/-- The distinct return values of `create_vm_from_template`. -/
inductive CreateRes
  | connFailed
  | baseImageMissing
  | alreadyExists (name : String)
  | rmStaleFailed (msg : String)
  | cloneFailed (msg : String)
  | chownFailed (msg : String)
  | chmodFailed (msg : String)
  | defineReturnedNone
  | libvirtFailed (msg : String)
  | created (name : String) (vncPort : Nat)
  /-- The port probe loop did not terminate within the modelling fuel. -/
  | portLoopDiverges
  deriving DecidableEq

/-- Result, executed commands, and whether the overlay file is on disk when
the call returns. -/
structure CreateOutcome where
  res : CreateRes
  ops : List CreateOp
  overlayOnDisk : Bool
  deriving DecidableEq

/-- `LibvirtManager.create_vm_from_template`, src/vms variant. Mirrors the
source line by line: connection check, base-image check, already-exists
check, stale-overlay removal, clone, chown, chmod, VNC port probe, defineXML
and start with the `libvirtError` cleanup handler that force-removes the
overlay if it exists. -/
def create_vm_from_template (vmName : String) (e : CreateEnv) : CreateOutcome :=
  let diskPath := newDiskPath vmName
  if !e.connOk then
    ⟨CreateRes.connFailed, [], e.staleOverlay⟩
  else if !e.baseImageExists then
    ⟨CreateRes.baseImageMissing, [], e.staleOverlay⟩
  else if e.nameKnown then
    ⟨CreateRes.alreadyExists vmName, [], e.staleOverlay⟩
  else
    -- 1. Clone disk image (with stale-overlay force removal first)
    let staleOps : List CreateOp := if e.staleOverlay then [CreateOp.rmForce diskPath] else []
    if e.staleOverlay && !e.rmStaleOk then
      ⟨CreateRes.rmStaleFailed e.rmStaleMsg, staleOps, true⟩
    else
      let cloneOps := staleOps ++ [CreateOp.qemuImgCreate "/var/lib/libvirt/images/kali-linux-2025.2-qemu-amd64.qcow2" diskPath]
      if !e.cloneOk then
        ⟨CreateRes.cloneFailed e.cloneMsg, cloneOps, false⟩
      else
        -- overlay now exists on disk
        let chownOps := cloneOps ++ [CreateOp.chownCmd "root:libvirt" diskPath]
        if !e.chownOk then
          ⟨CreateRes.chownFailed e.chownMsg, chownOps, true⟩
        else
          let chmodOps := chownOps ++ [CreateOp.chmodCmd "g+rw" diskPath]
          if !e.chmodOk then
            ⟨CreateRes.chmodFailed e.chmodMsg, chmodOps, true⟩
          else
            -- 2. Generate VM XML configuration; find an available VNC port
            match allocateVncPort e.listening e.portFuel with
            | none => ⟨CreateRes.portLoopDiverges, chmodOps, true⟩
            | some vncPort =>
              match e.defineRes with
              | DefineRes.raisesErr msg =>
                -- cleanup handler: overlay exists, force-remove it
                ⟨CreateRes.libvirtFailed msg,
                 chmodOps ++ [CreateOp.defineDomain, CreateOp.rmForce diskPath],
                 !e.rmCleanupOk⟩
              | DefineRes.returnsNone =>
                ⟨CreateRes.defineReturnedNone, chmodOps ++ [CreateOp.defineDomain], true⟩
              | DefineRes.returnsDom =>
                match e.startRes with
                | StartRes.raisesErr msg =>
                  ⟨CreateRes.libvirtFailed msg,
                   chmodOps ++ [CreateOp.defineDomain, CreateOp.startDomain, CreateOp.rmForce diskPath],
                   !e.rmCleanupOk⟩
                | StartRes.ok =>
                  ⟨CreateRes.created vmName vncPort,
                   chmodOps ++ [CreateOp.defineDomain, CreateOp.startDomain], true⟩

/-! ## Delete (`LibvirtManager.delete_vm`, src/vms variant) -/

/-- Environment of one `delete_vm` invocation. -/
structure DeleteEnv where
  /-- `self._reconnect()` returned a live handle. -/
  connOk : Bool
  /-- `conn.lookupByName(vm_name)` succeeded. -/
  found : Bool
  lookupMsg : String
  /-- `dom.isActive()`. -/
  active : Bool
  /-- `dom.destroy()` did not raise. -/
  destroyOk : Bool
  destroyMsg : String
  /-- The disk path extracted from the domain XML by `_get_disk_path`
  (`none` models Python `None` from a missing `file` attribute). -/
  diskPath : Option String
  /-- `os.path.exists(disk_path)`. -/
  fileExists : Bool
  /-- `dom.undefine()` did not raise. -/
  undefineOk : Bool
  undefineMsg : String
  /-- `rm -f` on the disk file succeeded. -/
  rmOk : Bool
  rmMsg : String

/-- The side-effecting sub-steps of `delete_vm`, in execution order. -/
inductive DeleteOp
  | powerOff
  | undefineDomain
  | rmDisk (path : String)
  deriving DecidableEq

/-- The distinct return values of `delete_vm`. -/
inductive DeleteRes
  | connFailed
  | lvError (msg : String)
  | rmFailed (path msg : String)
  | deleted (name : String)
  deriving DecidableEq

/-- Python truthiness of the extracted disk path: `None` and the empty
string are falsy, every other string (including `"Unknown"`) is truthy. -/
def diskPathTruthy : Option String → Bool
  | none => false
  | some p => p ≠ ""

/-- `LibvirtManager.delete_vm`, src/vms variant: force power-off when
active, read the disk path, undefine, then remove the disk file only when
its path is truthy and the file exists. Any `libvirtError` raised by
lookup, destroy or undefine is caught and returned as a failure. -/
def delete_vm (vmName : String) (e : DeleteEnv) : DeleteRes × List DeleteOp :=
  if !e.connOk then (DeleteRes.connFailed, [])
  else if !e.found then (DeleteRes.lvError e.lookupMsg, [])
  else
    let destroyOps : List DeleteOp := if e.active then [DeleteOp.powerOff] else []
    if e.active && !e.destroyOk then
      (DeleteRes.lvError e.destroyMsg, destroyOps)
    else if !e.undefineOk then
      (DeleteRes.lvError e.undefineMsg, destroyOps ++ [DeleteOp.undefineDomain])
    else
      let undefOps := destroyOps ++ [DeleteOp.undefineDomain]
      match e.diskPath with
      | some p =>
        if p ≠ "" && e.fileExists then
          if e.rmOk then
            (DeleteRes.deleted vmName, undefOps ++ [DeleteOp.rmDisk p])
          else
            (DeleteRes.rmFailed p e.rmMsg, undefOps ++ [DeleteOp.rmDisk p])
        else
          (DeleteRes.deleted vmName, undefOps)
      | none => (DeleteRes.deleted vmName, undefOps)

/-! ## Listing (`LibvirtManager.list_vms`, src/vms variant) -/

/-- The dictionary built by `_get_domain_details` for one domain. -/
structure DomDetails where
  name : String
  uuid : String
  status : String
  memoryMb : Nat
  vcpuCount : Nat
  vncPort : Option Nat
  autostart : Bool
  diskPath : String
  deriving DecidableEq

/-- `LibvirtManager.list_vms`, src/vms variant: append the details of every
active domain, then append each defined (inactive) domain's details only if
no already-collected entry carries its name. `details` models
`_get_domain_details` applied to the domain looked up by id or name. -/
def list_vms (activeNames definedNames : List String)
    (details : String → DomDetails) : List DomDetails :=
  let activeInfo := activeNames.map details
  definedNames.foldl
    (fun acc domName =>
      if acc.any (fun vm => vm.name = domName) then acc else acc ++ [details domName])
    activeInfo

/-! ## Gateway grant (`GuacamoleClient.grant_user_permissions`,
`src/vms/guacamodel.py`)

The gateway client itself (`client.Guacamole`: `add_user`,
`add_connection`, `grant_permission`) is imported from a module that is not
part of the sources. Modelled from the spec: missing `client.Guacamole`;
per the spec's Grant step 1, an "already exists" response to user creation
is treated as non-fatal and the flow continues (the one recognized
recoverable condition), while any other HTTP or transport error raises and
aborts. -/

/-- `startsWithChars needle hay`: `needle` is a leading segment of `hay`. -/
def startsWithChars : List Char → List Char → Bool
  | [], _ => true
  | _ :: _, [] => false
  | a :: as, b :: bs => a = b && startsWithChars as bs

/-- `occursInChars needle hay`: `needle` occurs contiguously in `hay`
(Python's `needle in hay` on strings). -/
def occursInChars (needle : List Char) : List Char → Bool
  | [] => startsWithChars needle []
  | b :: bs => startsWithChars needle (b :: bs) || occursInChars needle bs

/-- The gateway's error envelope `{type, translatableMessage.variables.MESSAGE}`. -/
structure GwError where
  etype : String
  message : String
  deriving DecidableEq

/-- `GuacamoleClient._parse_context`: return the MESSAGE when the envelope is
a `BAD_REQUEST` whose message mentions "already exists", else `None`. -/
def parse_context (d : GwError) : Option String :=
  if d.etype = "BAD_REQUEST" && occursInChars "already exists".toList d.message.toList then
    some d.message
  else
    none

/-- Outcome of the user-creation step (`guacamole.add_user`). Modelled from
the spec: missing `client.Guacamole.add_user`; success and the recognized
"already exists" response both return normally, other errors raise. -/
inductive UserAddRes
  | ok
  | alreadyExists
  | raisesHttp (err : GwError)
  | raisesConn (msg : String)
  deriving DecidableEq

/-- Outcome of the connection-creation step (`guacamole.add_connection`):
a response with or without an `identifier`, or a raised HTTP error. -/
inductive ConnAddRes
  | returnsIdent (idBytes : List Nat)
  | returnsNoIdent
  | raisesHttp (err : GwError)
  deriving DecidableEq

/-- Outcome of the permission-grant step (`guacamole.grant_permission`):
a response with a status code, or a raised HTTP error. -/
inductive PermRes
  | statusCode (code : Nat)
  | raisesHttp (err : GwError)
  deriving DecidableEq

/-- Environment of one `grant_user_permissions` invocation. -/
structure GrantEnv where
  /-- `self.guacamole` is set and `_is_initialized` (the `with` block entered
  successfully). -/
  initialized : Bool
  userRes : UserAddRes
  connRes : ConnAddRes
  permRes : PermRes

/-- The gateway API steps, in execution order. -/
inductive GwStep
  | addUser
  | addConnection
  | grantPermission
  deriving DecidableEq

/-- The distinct return values of `grant_user_permissions`. -/
inductive GrantRes
  | notInitialized
  | httpFailure (parsedMsg : Option String)
  | connectFailure (msg : String)
  | noIdentFailure
  | badStatus (code : Nat)
  | granted (link : String) (connIdBytes : List Nat) (vncPort : Nat)
  deriving DecidableEq

/-- `GuacamoleClient.grant_user_permissions`: add user (already-exists is
non-fatal), add connection and extract its identifier, grant READ permission
expecting HTTP 204, then compose the client link. Raised
`requests` exceptions are caught and returned as failures; the HTTP-error
message is filtered through `_parse_context`. -/
def grant_user_permissions (hostname urlPath username : String)
    (vncport : Nat) (e : GrantEnv) : GrantRes × List GwStep :=
  if !e.initialized then (GrantRes.notInitialized, [])
  else
    match e.userRes with
    | UserAddRes.raisesHttp err => (GrantRes.httpFailure (parse_context err), [GwStep.addUser])
    | UserAddRes.raisesConn msg => (GrantRes.connectFailure msg, [GwStep.addUser])
    | _ =>
      -- user successfully added or already exists: continue
      match e.connRes with
      | ConnAddRes.raisesHttp err =>
        (GrantRes.httpFailure (parse_context err), [GwStep.addUser, GwStep.addConnection])
      | ConnAddRes.returnsNoIdent =>
        (GrantRes.noIdentFailure, [GwStep.addUser, GwStep.addConnection])
      | ConnAddRes.returnsIdent connId =>
        match e.permRes with
        | PermRes.raisesHttp err =>
          (GrantRes.httpFailure (parse_context err),
           [GwStep.addUser, GwStep.addConnection, GwStep.grantPermission])
        | PermRes.statusCode code =>
          if code = 204 then
            (GrantRes.granted (guacClientUrl "https" hostname urlPath connId) connId vncport,
             [GwStep.addUser, GwStep.addConnection, GwStep.grantPermission])
          else
            (GrantRes.badStatus code,
             [GwStep.addUser, GwStep.addConnection, GwStep.grantPermission])

/-- The `POST /api/v1/vms` handler of `src/libvirt_server.py`: run Create;
only on success enter the Guacamole client context and run Grant. Returns
whether the response reports success, the commands Create executed, and the
gateway steps executed. -/
def create_vm_endpoint (vmName : String) (e : CreateEnv) (g : GrantEnv) :
    Bool × List CreateOp × List GwStep :=
  let c := create_vm_from_template vmName e
  match c.res with
  | CreateRes.created _ vncPort =>
    let (gres, gsteps) := grant_user_permissions "192.168.3.132:8443" "/" vmName vncPort g
    match gres with
    | GrantRes.granted _ _ _ => (true, c.ops, gsteps)
    | _ => (false, c.ops, gsteps)
  | _ => (false, c.ops, [])

/-! ## Reconciliation (`index` in `src/app3.py`) -/

/-- One persisted VM record as `database.get_all_vm_records` returns it: the
SELECT names the columns in the order `connid, name, template_name, status,
creation_time, vnc_port, link, memorysize, vcpucount`, so tuple index 0 is
the gateway connection id, index 1 the VM name (the table's unique key),
index 2 the template name and index 3 the stored status. Only the columns
the reconciliation pass touches are carried. -/
structure VmRow where
  connid : Int
  name : String
  templateName : String
  status : String
  deriving DecidableEq

/-- A Python value the front end passes as a dict key or SQL parameter. The
reconciliation loop reads `vm_record[0]` — the integer connection id — and
passes it where a VM-name string is expected; under Python equality an
integer never equals a string. -/
inductive PyKey
  | intKey (n : Int)
  | strKey (s : String)
  deriving DecidableEq

/-- The map `{vm['name']: vm for vm in libvirt_vms_data}` built by `index`:
keyed by the live enumeration's VM-name strings, carrying each VM's
status (the one field the loop reads from the value). -/
def mkLiveMap (live : List (String × String)) : List (PyKey × String) :=
  live.map (fun p => (PyKey.strKey p.1, p.2))

/-- Python `dict.get` on the live map. -/
def lookupKey (m : List (PyKey × String)) (k : PyKey) : Option String :=
  match m.find? (fun p => p.1 == k) with
  | some p => some p.2
  | none => none

/-- SQLite comparison of the TEXT column `name` against a bound parameter
(`WHERE name = ?`): the column has TEXT affinity, so an integer parameter is
converted to its decimal text before the comparison, and a string parameter
is compared directly. -/
def sqliteNameMatches (name : String) : PyKey → Bool
  | PyKey.intKey n => name = toString n
  | PyKey.strKey s => name = s

/-- The record-store mutations the front end can issue
(`database.update_vm_status`, `database.delete_vm_record`,
`database.add_vm_record`), carrying the Python value the caller binds as
the name parameter. -/
inductive DbOp
  | updateStatus (key : PyKey) (status : String)
  | deleteRecord (key : PyKey)
  | addRecord (row : VmRow)
  deriving DecidableEq

/-- The per-record body of the `index` reconciliation loop, as written:
`vm_name_db = vm_record[0]` binds the connection id; the live lookup
`libvirt_vms_map.get(vm_name_db)` keys the name-keyed map with that
integer; the status comparison reads `vm_record[2]`, the template name; and
`update_vm_status` / `delete_vm_record` receive the integer as the name
parameter. Returns the store operations issued, in order, and the keys the
flashed warnings name. -/
def indexSyncOps (rows : List VmRow) (liveMap : List (PyKey × String)) :
    List DbOp × List PyKey :=
  match rows with
  | [] => ([], [])
  | r :: rest =>
    let ops := (indexSyncOps rest liveMap).1
    let warns := (indexSyncOps rest liveMap).2
    match lookupKey liveMap (PyKey.intKey r.connid) with
    | some st =>
      if st ≠ r.templateName then
        (DbOp.updateStatus (PyKey.intKey r.connid) st :: ops, warns)
      else (ops, warns)
    | none =>
      (DbOp.deleteRecord (PyKey.intKey r.connid) :: ops, PyKey.intKey r.connid :: warns)

/-- Apply one store mutation: `UPDATE vms SET status = ? WHERE name = ?`
rewrites the rows the parameter matches, `DELETE FROM vms WHERE name = ?`
removes the rows the parameter matches, insert appends a row. -/
def applyDbOp (db : List VmRow) : DbOp → List VmRow
  | DbOp.updateStatus k st =>
      db.map (fun r => if sqliteNameMatches r.name k then { r with status := st } else r)
  | DbOp.deleteRecord k => db.filter (fun r => !sqliteNameMatches r.name k)
  | DbOp.addRecord row => db ++ [row]

/-- Apply store mutations in order. -/
def applyDbOps (db : List VmRow) (ops : List DbOp) : List VmRow :=
  ops.foldl applyDbOp db

/-! ## Theorems -/

/-- C5: Status normalization is a total function on hypervisor state codes:
codes 0–7 map to No State, Running, Blocked, Paused, Shutting Down,
Shut Off, Crashed and Suspended respectively, and every other code maps to
Unknown State, with no missing case. -/
theorem status_normalization_total :
    domainStatusString 0 = "No State" ∧ domainStatusString 1 = "Running" ∧
    domainStatusString 2 = "Blocked" ∧ domainStatusString 3 = "Paused" ∧
    domainStatusString 4 = "Shutting Down" ∧ domainStatusString 5 = "Shut Off" ∧
    domainStatusString 6 = "Crashed" ∧ domainStatusString 7 = "Suspended" ∧
    ∀ code, 8 ≤ code → domainStatusString code = "Unknown State" := by
  refine ⟨rfl, rfl, rfl, rfl, rfl, rfl, rfl, rfl, ?_⟩
  intro code hc
  obtain ⟨d, rfl⟩ : ∃ d, code = d + 8 := ⟨code - 8, by omega⟩
  rfl

/-- C5 witness: the normalization evaluated at code 1 and at the unmapped
code 42. -/
theorem status_normalization_total_witness :
    domainStatusString 1 = "Running" ∧ domainStatusString 42 = "Unknown State" :=
  ⟨status_normalization_total.2.1,
   status_normalization_total.2.2.2.2.2.2.2.2 42 (by decide)⟩

/-- Helper for C8: whenever the probe loop returns a port, that port is not
listening, is at least the starting port, and every port from the start up
to it was listening. -/
theorem findFreePort_first_free (L : Nat → Bool) :
    ∀ fuel start res, findFreePort L fuel start = some res →
      L res = false ∧ start ≤ res ∧ ∀ q, start ≤ q → q < res → L q = true := by
  intro fuel
  induction fuel with
  | zero => intro start res h; simp [findFreePort] at h
  | succ n ih =>
    intro start res h
    unfold findFreePort at h
    by_cases hl : L start
    · rw [if_pos hl] at h
      obtain ⟨h1, h2, h3⟩ := ih (start + 1) res h
      refine ⟨h1, by omega, fun q hq hq2 => ?_⟩
      rcases Nat.eq_or_lt_of_le hq with rfl | hlt
      · exact hl
      · exact h3 q hlt hq2
    · rw [if_neg hl] at h
      cases h
      exact ⟨Bool.eq_false_iff.mpr hl, Nat.le_refl _, fun q hq hq2 => absurd hq2 (by omega)⟩

/-- C8: The VNC port probe starts at 5900 and increments by one; whenever it
returns a port, that port's TCP connect attempt was refused or timed out
(`listening = false`), the port is at least 5900, and every lower port from
5900 on had a listener accepting connections — so the returned console port
is never one with an accepting TCP listener at call time. -/
theorem port_allocation_never_listening (listening : Nat → Bool) (fuel p : Nat)
    (h : allocateVncPort listening fuel = some p) :
    listening p = false ∧ 5900 ≤ p ∧ ∀ q, 5900 ≤ q → q < p → listening q = true :=
  findFreePort_first_free listening fuel 5900 p h

/-- C8 witness: with only port 5900 occupied, the probe returns 5901. -/
theorem port_allocation_never_listening_witness :
    allocateVncPort (fun q => q == 5900) 3 = some 5901 ∧
    (fun q => q == 5900 : Nat → Bool) 5901 = false ∧ 5900 ≤ 5901 :=
  ⟨by decide,
   (port_allocation_never_listening (fun q => q == 5900) 3 5901 (by decide)).1,
   (port_allocation_never_listening (fun q => q == 5900) 3 5901 (by decide)).2.1⟩

/-- C6: Delete on a non-active domain never executes the forced power-off
sub-step, and its outcome is independent of whatever the power-off call
would have returned — an already-off domain is left as-is and cannot error
on the power-off step. -/
theorem delete_power_off_idempotent (vmName : String) (e : DeleteEnv)
    (hinactive : e.active = false) :
    DeleteOp.powerOff ∉ (delete_vm vmName e).2 ∧
    ∀ b m, delete_vm vmName { e with destroyOk := b, destroyMsg := m } =
      delete_vm vmName e := by
  constructor
  · unfold delete_vm
    simp only [hinactive, Bool.false_and, Bool.not_false, Bool.false_eq_true, if_false,
      List.nil_append]
    repeat' split
    all_goals simp
  · intro b m
    unfold delete_vm
    simp [hinactive]

/-- C6 witness: deleting a found, inactive domain with an existing disk. -/
theorem delete_power_off_idempotent_witness :
    DeleteOp.powerOff ∉ (delete_vm "vm1"
      { connOk := true, found := true, lookupMsg := "", active := false,
        destroyOk := true, destroyMsg := "", diskPath := some "/var/lib/libvirt/images/vm1.qcow2",
        fileExists := true, undefineOk := true, undefineMsg := "",
        rmOk := true, rmMsg := "" }).2 :=
  (delete_power_off_idempotent "vm1" _ rfl).1

/-- C10: when the domain is found, any required power-off and the undefine
succeed, and the extracted disk path (for instance the sentinel "Unknown")
names no existing file, Delete skips the disk-removal sub-step entirely and
returns plain success, not a partial-delete failure. -/
theorem delete_success_without_disk_file (vmName : String) (e : DeleteEnv)
    (hconn : e.connOk = true) (hfound : e.found = true)
    (hdestroy : e.active = true → e.destroyOk = true)
    (hundef : e.undefineOk = true) (hnofile : e.fileExists = false) :
    (delete_vm vmName e).1 = DeleteRes.deleted vmName ∧
    ∀ p, DeleteOp.rmDisk p ∉ (delete_vm vmName e).2 := by
  unfold delete_vm
  simp only [hconn, hfound, hundef, hnofile, Bool.not_true, Bool.false_eq_true, if_false,
    Bool.and_false, Bool.not_false]
  have hda : (e.active && !e.destroyOk) = false := by
    cases ha : e.active
    · simp
    · simp [hdestroy ha]
  simp only [hda, Bool.false_eq_true, if_false]
  cases e.diskPath with
  | none => simp
  | some p => simp

/-- C10 witness: a found, inactive domain whose descriptor yields the
sentinel path "Unknown" with no such file on disk. -/
theorem delete_success_without_disk_file_witness :
    (delete_vm "vm1"
      { connOk := true, found := true, lookupMsg := "", active := false,
        destroyOk := true, destroyMsg := "", diskPath := some "Unknown",
        fileExists := false, undefineOk := true, undefineMsg := "",
        rmOk := true, rmMsg := "" }).1 = DeleteRes.deleted "vm1" :=
  (delete_success_without_disk_file "vm1" _ rfl rfl (fun h => by simp at h) rfl rfl).1

/-- C2: when the hypervisor already knows the name (and the preceding
connection and base-image checks pass), Create returns the already-exists
conflict, executes no external command (no remove, clone, chown, chmod,
define or start), leaves the disk state untouched, and the server endpoint
performs no gateway step. -/
theorem create_already_exists_no_side_effects (vmName : String)
    (e : CreateEnv) (g : GrantEnv)
    (hconn : e.connOk = true) (hbase : e.baseImageExists = true)
    (hknown : e.nameKnown = true) :
    (create_vm_from_template vmName e).res = CreateRes.alreadyExists vmName ∧
    (create_vm_from_template vmName e).ops = [] ∧
    (create_vm_from_template vmName e).overlayOnDisk = e.staleOverlay ∧
    create_vm_endpoint vmName e g = (false, [], []) := by
  have hc : create_vm_from_template vmName e =
      ⟨CreateRes.alreadyExists vmName, [], e.staleOverlay⟩ := by
    unfold create_vm_from_template
    simp [hconn, hbase, hknown]
  refine ⟨by rw [hc], by rw [hc], by rw [hc], ?_⟩
  unfold create_vm_endpoint
  rw [hc]

/-- C2 witness: a concrete environment in which the name is known. -/
theorem create_already_exists_no_side_effects_witness :
    (create_vm_from_template "vm1"
      { connOk := true, baseImageExists := true, nameKnown := true,
        staleOverlay := false, rmStaleOk := true, rmStaleMsg := "",
        cloneOk := true, cloneMsg := "", chownOk := true, chownMsg := "",
        chmodOk := true, chmodMsg := "", listening := fun _ => false,
        portFuel := 1, defineRes := DefineRes.returnsDom,
        startRes := StartRes.ok, rmCleanupOk := true, rmCleanupMsg := "" }).ops = [] :=
  (create_already_exists_no_side_effects "vm1" _
    { initialized := true, userRes := UserAddRes.ok,
      connRes := ConnAddRes.returnsIdent [52, 50],
      permRes := PermRes.statusCode 204 } rfl rfl rfl).2.1

/-- Environment exhibiting the C1 counterexample: every step up to the clone
succeeds, then the ownership change fails. -/
def chownFailEnv : CreateEnv :=
  { connOk := true, baseImageExists := true, nameKnown := false,
    staleOverlay := false, rmStaleOk := true, rmStaleMsg := "",
    cloneOk := true, cloneMsg := "",
    chownOk := false, chownMsg := "chown: changing ownership: Operation not permitted",
    chmodOk := true, chmodMsg := "", listening := fun _ => false, portFuel := 1,
    defineRes := DefineRes.returnsDom, startRes := StartRes.ok,
    rmCleanupOk := true, rmCleanupMsg := "" }

/-- C1 counterexample: a Create that creates the overlay (the clone command
succeeds) and then fails at the ownership-change step returns the error with
the overlay still on disk; the executed command list contains no force
removal after the clone, refuting the claim that every post-overlay failure
removes the overlay. -/
theorem create_rollback_claim_refuted :
    (create_vm_from_template "vm1" chownFailEnv).res =
      CreateRes.chownFailed "chown: changing ownership: Operation not permitted" ∧
    (create_vm_from_template "vm1" chownFailEnv).overlayOnDisk = true ∧
    (create_vm_from_template "vm1" chownFailEnv).ops =
      [CreateOp.qemuImgCreate "/var/lib/libvirt/images/kali-linux-2025.2-qemu-amd64.qcow2"
        "/var/lib/libvirt/images/vm1.qcow2",
       CreateOp.chownCmd "root:libvirt" "/var/lib/libvirt/images/vm1.qcow2"] := by
  refine ⟨rfl, rfl, rfl⟩

/-- C1 (amended): the overlay is force-removed before the error return only
when `defineXML` or the domain start raises a hypervisor error (the
`libvirtError` handler); in that case the cleanup removal is executed and
the overlay is gone exactly when that removal succeeds. Failures at the
ownership or permission steps, or `defineXML` returning null, return the
error with the overlay left on disk. -/
theorem create_rollback_on_hypervisor_error (vmName : String) (e : CreateEnv) (p : Nat)
    (hconn : e.connOk = true) (hbase : e.baseImageExists = true)
    (hname : e.nameKnown = false)
    (hstale : e.staleOverlay = true → e.rmStaleOk = true)
    (hclone : e.cloneOk = true) (hchown : e.chownOk = true) (hchmod : e.chmodOk = true)
    (hport : allocateVncPort e.listening e.portFuel = some p)
    (hfail : (∃ m, e.defineRes = DefineRes.raisesErr m) ∨
      (e.defineRes = DefineRes.returnsDom ∧ ∃ m, e.startRes = StartRes.raisesErr m)) :
    (∃ m, (create_vm_from_template vmName e).res = CreateRes.libvirtFailed m) ∧
    CreateOp.rmForce (newDiskPath vmName) ∈ (create_vm_from_template vmName e).ops ∧
    (create_vm_from_template vmName e).overlayOnDisk = !e.rmCleanupOk := by
  have hsr : (e.staleOverlay && !e.rmStaleOk) = false := by
    cases hs : e.staleOverlay
    · simp
    · simp [hstale hs]
  unfold create_vm_from_template
  simp only [hconn, hbase, hname, hsr, hclone, hchown, hchmod, Bool.not_true,
    Bool.false_eq_true, if_false, allocateVncPort] at *
  rw [hport]
  rcases hfail with ⟨m, hm⟩ | ⟨hd, m, hm⟩
  · rw [hm]
    exact ⟨⟨m, rfl⟩, by simp, rfl⟩
  · rw [hd, hm]
    exact ⟨⟨m, rfl⟩, by simp, rfl⟩

/-- C1 witness: define succeeds, the start raises, and the cleanup removal
succeeds, so the failed Create leaves no overlay on disk. -/
theorem create_rollback_on_hypervisor_error_witness :
    (create_vm_from_template "vm1"
      { connOk := true, baseImageExists := true, nameKnown := false,
        staleOverlay := false, rmStaleOk := true, rmStaleMsg := "",
        cloneOk := true, cloneMsg := "", chownOk := true, chownMsg := "",
        chmodOk := true, chmodMsg := "", listening := fun _ => false, portFuel := 1,
        defineRes := DefineRes.returnsDom,
        startRes := StartRes.raisesErr "internal error",
        rmCleanupOk := true, rmCleanupMsg := "" }).overlayOnDisk = !true :=
  (create_rollback_on_hypervisor_error "vm1" _ 5900 rfl rfl rfl
    (fun h => by simp at h) rfl rfl rfl (by decide)
    (Or.inr ⟨rfl, "internal error", rfl⟩)).2.2

/-- C4: when the user-creation step reports that the username already exists
on the gateway, Grant does not abort: the connection-creation step runs, and
once the connection yields an identifier the permission-grant step runs too.
Conversely, every exceptional outcome of the user-creation step — an HTTP
error or a transport error — aborts before the connection step, so the
already-exists condition is the only locally recovered error. -/
theorem grant_continues_on_existing_user (hostname urlPath username : String)
    (vncport : Nat) (e : GrantEnv) (hinit : e.initialized = true) :
    (e.userRes = UserAddRes.alreadyExists →
      GwStep.addConnection ∈ (grant_user_permissions hostname urlPath username vncport e).2 ∧
      ∀ cid, e.connRes = ConnAddRes.returnsIdent cid →
        GwStep.grantPermission ∈ (grant_user_permissions hostname urlPath username vncport e).2) ∧
    (∀ err, e.userRes = UserAddRes.raisesHttp err →
      (grant_user_permissions hostname urlPath username vncport e).1 =
        GrantRes.httpFailure (parse_context err) ∧
      GwStep.addConnection ∉ (grant_user_permissions hostname urlPath username vncport e).2) ∧
    (∀ m, e.userRes = UserAddRes.raisesConn m →
      (grant_user_permissions hostname urlPath username vncport e).1 =
        GrantRes.connectFailure m ∧
      GwStep.addConnection ∉ (grant_user_permissions hostname urlPath username vncport e).2) := by
  unfold grant_user_permissions
  simp only [hinit, Bool.not_true, Bool.false_eq_true, if_false]
  refine ⟨?_, ?_, ?_⟩
  · intro hu
    rw [hu]
    constructor
    · cases hc : e.connRes <;> simp
      cases e.permRes <;> simp
      split <;> simp
    · intro cid hc
      rw [hc]
      cases e.permRes <;> simp
      split <;> simp
  · intro err hu
    rw [hu]
    simp
  · intro m hu
    rw [hu]
    simp

/-- C4 witness: an initialized client whose user-creation step reports
already-exists and whose connection step yields identifier "42". -/
theorem grant_continues_on_existing_user_witness :
    GwStep.addConnection ∈ (grant_user_permissions "192.168.3.132:8443" "/" "alice" 5900
      { initialized := true, userRes := UserAddRes.alreadyExists,
        connRes := ConnAddRes.returnsIdent [52, 50],
        permRes := PermRes.statusCode 204 }).2 :=
  ((grant_continues_on_existing_user "192.168.3.132:8443" "/" "alice" 5900 _ rfl).1 rfl).1

/-- Helper for C9: the defined-domain fold preserves distinctness of the
collected names, because a defined domain is appended only when no collected
entry already carries its name. -/
theorem list_vms_fold_nodup (details : String → DomDetails)
    (hdet : ∀ n, (details n).name = n) :
    ∀ (definedNames : List String) (acc : List DomDetails),
      (acc.map (fun vm => vm.name)).Nodup →
      ((definedNames.foldl
        (fun acc domName =>
          if acc.any (fun vm => vm.name = domName) then acc else acc ++ [details domName])
        acc).map (fun vm => vm.name)).Nodup := by
  intro definedNames
  induction definedNames with
  | nil => intro acc hacc; simpa using hacc
  | cons d ds ih =>
    intro acc hacc
    rw [List.foldl_cons]
    by_cases hany : acc.any (fun vm => vm.name = d)
    · rw [if_pos hany]
      exact ih acc hacc
    · rw [if_neg hany]
      apply ih
      rw [List.map_append]
      simp only [List.map_cons, List.map_nil, hdet]
      rw [List.nodup_append]
      refine ⟨hacc, List.nodup_singleton d, ?_⟩
      intro x hx
      simp only [List.mem_singleton]
      intro hxd
      subst hxd
      obtain ⟨vm, hvm, hname⟩ := List.exists_of_mem_map hx
      exact hany (List.any_eq_true.mpr ⟨vm, hvm, by simp [hname]⟩)

/-- C9: when the hypervisor's active enumeration carries pairwise distinct
names (libvirt domain names are unique) and looking a domain up by name
yields a detail record carrying that name, the list returned by `list_vms`
holds at most one entry per domain name: a domain present in both the
active and the defined enumeration is reported once. -/
theorem list_vms_at_most_one_entry_per_name (activeNames definedNames : List String)
    (details : String → DomDetails)
    (hdet : ∀ n, (details n).name = n)
    (hact : activeNames.Nodup) :
    ((list_vms activeNames definedNames details).map (fun vm => vm.name)).Nodup ∧
    ∀ n, ((list_vms activeNames definedNames details).map (fun vm => vm.name)).count n ≤ 1 := by
  have hbase : ((activeNames.map details).map (fun vm => vm.name)).Nodup := by
    rw [List.map_map]
    have : (fun vm => DomDetails.name vm) ∘ details = fun n => n := by
      funext n
      exact hdet n
    rw [this]
    simpa using hact
  have hmain := list_vms_fold_nodup details hdet definedNames (activeNames.map details) hbase
  refine ⟨hmain, fun n => ?_⟩
  exact List.nodup_iff_count_le_one.mp hmain n

/-- C9 witness: domain "a" is both active and defined; it is reported
once. -/
theorem list_vms_at_most_one_entry_per_name_witness :
    ((list_vms ["a", "b"] ["a", "c"]
      (fun n => ⟨n, "", "Running", 2048, 2, none, false, "Unknown"⟩)).map
        (fun vm => vm.name)).Nodup :=
  (list_vms_at_most_one_entry_per_name ["a", "b"] ["a", "c"] _
    (fun n => rfl) (by decide)).1

/-- The C7 failing input: one persisted record named "ghost" with gateway
connection id 7, while the hypervisor's live enumeration is empty — the
name "ghost" is not found there. -/
def ghostRow : VmRow :=
  { connid := 7, name := "ghost",
    templateName := "kali-linux-2025.2-qemu-amd64.qcow2", status := "Running" }

/-- C7: the reconciliation pass evaluated at the failing input. The pass
takes the not-found branch, but keyed on the record's connection id rather
than its name — `vm_record[0]` is the `connid` column per the SELECT order
of `get_all_vm_records` — so it issues `DELETE FROM vms WHERE name = 7`
and the flashed warning names the integer 7; applying the pass's store
operations leaves the record named "ghost" in the store. The record whose
name the hypervisor does not know is therefore not removed, against the
claim and against the code's own message ("removed from database"). The
final conjunct shows the integer-keyed lookup misses even a record whose
name is live, so the found branch is unreachable. -/
theorem reconciliation_misses_record_on_connid_key :
    (indexSyncOps [ghostRow] (mkLiveMap [])).1 =
      [DbOp.deleteRecord (PyKey.intKey 7)] ∧
    (indexSyncOps [ghostRow] (mkLiveMap [])).2 = [PyKey.intKey 7] ∧
    applyDbOps [ghostRow] (indexSyncOps [ghostRow] (mkLiveMap [])).1 = [ghostRow] ∧
    lookupKey (mkLiveMap [("ghost", "Running")]) (PyKey.intKey ghostRow.connid) = none := by
  refine ⟨rfl, rfl, ?_, rfl⟩
  decide

/-- Helper for C3: the standard alphabet's value map inverts its character
map on 6-bit values. -/
theorem b64val_b64Char : ∀ n, n < 64 → b64val (b64Char n) = n := by decide

/-- Helper for C3: no alphabet character is the padding character. -/
theorem b64Char_ne_pad : ∀ n, n < 64 → b64Char n ≠ '=' := by decide

/-- Helper for C3: decoding inverts encoding on byte lists — dropping the
padding, mapping characters back to 6-bit values and regrouping yields the
original bytes. -/
theorem b64encode_decode (bs : List Nat) (h : ∀ x ∈ bs, x < 256) :
    b64decodeVals (((b64encodeList bs).filter (fun ch => ch ≠ '=')).map b64val) = bs := by
  induction bs using b64encodeList.induct with
  | case1 a b c rest ih =>
    have ha : a < 256 := h a (by simp)
    have hb : b < 256 := h b (by simp)
    have hc : c < 256 := h c (by simp)
    have hrest : ∀ x ∈ rest, x < 256 := fun x hx => h x (by simp [hx])
    have h1 : b64Char (a / 4) ≠ '=' := b64Char_ne_pad _ (by omega)
    have h2 : b64Char (a % 4 * 16 + b / 16) ≠ '=' := b64Char_ne_pad _ (by omega)
    have h3 : b64Char (b % 16 * 4 + c / 64) ≠ '=' := b64Char_ne_pad _ (by omega)
    have h4 : b64Char (c % 64) ≠ '=' := b64Char_ne_pad _ (by omega)
    rw [b64encodeList]
    rw [List.filter_cons_of_pos (by simp [h1]), List.filter_cons_of_pos (by simp [h2]),
      List.filter_cons_of_pos (by simp [h3]), List.filter_cons_of_pos (by simp [h4])]
    rw [List.map_cons, List.map_cons, List.map_cons, List.map_cons]
    rw [b64val_b64Char _ (by omega), b64val_b64Char _ (by omega),
      b64val_b64Char _ (by omega), b64val_b64Char _ (by omega)]
    rw [b64decodeVals]
    simp only [List.cons.injEq]
    exact ⟨by omega, by omega, by omega, ih hrest⟩
  | case2 a b =>
    have ha : a < 256 := h a (by simp)
    have hb : b < 256 := h b (by simp)
    have h1 : b64Char (a / 4) ≠ '=' := b64Char_ne_pad _ (by omega)
    have h2 : b64Char (a % 4 * 16 + b / 16) ≠ '=' := b64Char_ne_pad _ (by omega)
    have h3 : b64Char (b % 16 * 4) ≠ '=' := b64Char_ne_pad _ (by omega)
    rw [b64encodeList]
    rw [List.filter_cons_of_pos (by simp [h1]), List.filter_cons_of_pos (by simp [h2]),
      List.filter_cons_of_pos (by simp [h3]), List.filter_cons_of_neg (by simp)]
    rw [List.filter_nil, List.map_cons, List.map_cons, List.map_cons, List.map_nil]
    rw [b64val_b64Char _ (by omega), b64val_b64Char _ (by omega), b64val_b64Char _ (by omega)]
    dsimp only [b64decodeVals]
    simp only [List.cons.injEq]
    exact ⟨by omega, by omega, trivial⟩
  | case3 a =>
    have ha : a < 256 := h a (by simp)
    have h1 : b64Char (a / 4) ≠ '=' := b64Char_ne_pad _ (by omega)
    have h2 : b64Char (a % 4 * 16) ≠ '=' := b64Char_ne_pad _ (by omega)
    rw [b64encodeList]
    rw [List.filter_cons_of_pos (by simp [h1]), List.filter_cons_of_pos (by simp [h2]),
      List.filter_cons_of_neg (by simp), List.filter_cons_of_neg (by simp)]
    rw [List.filter_nil, List.map_cons, List.map_cons, List.map_nil]
    rw [b64val_b64Char _ (by omega), b64val_b64Char _ (by omega)]
    dsimp only [b64decodeVals]
    simp only [List.cons.injEq]
    exact ⟨by omega, trivial⟩
  | case4 => rfl

/-- Helper for C3: removing leading padding commutes with discarding
padding. -/
theorem filter_ne_pad_dropWhile (cs : List Char) :
    (cs.dropWhile (fun ch => ch = '=')).filter (fun ch => ch ≠ '=') =
      cs.filter (fun ch => ch ≠ '=') := by
  induction cs with
  | nil => rfl
  | cons x xs ih =>
    by_cases hx : x = '='
    · subst hx
      rw [List.dropWhile_cons, if_pos (by simp), List.filter_cons_of_neg (by simp)]
      exact ih
    · rw [List.dropWhile_cons, if_neg (by simp [hx])]

/-- Helper for C3: stripping trailing padding commutes with discarding
padding. -/
theorem filter_stripB64Padding (cs : List Char) :
    (stripB64Padding cs).filter (fun ch => ch ≠ '=') = cs.filter (fun ch => ch ≠ '=') := by
  unfold stripB64Padding
  rw [List.filter_reverse, filter_ne_pad_dropWhile, ← List.filter_reverse, List.reverse_reverse]

/-- Helper for C3: the re-padding characters are all discarded by
decoding. -/
theorem filter_pad_replicate (n : Nat) :
    (List.replicate n '=').filter (fun ch => ch ≠ '=') = [] := by
  rw [List.filter_eq_nil_iff]
  intro a ha
  have := List.eq_of_mem_replicate ha
  simp [this]

/-- Helper for C3: the fixed suffix is a byte list. -/
theorem guacSuffixBytes_bounds : ∀ x ∈ guacSuffixBytes, x < 256 := by decide

/-- C3 counterexample: for the connection id "ab>" (UTF-8 bytes
[97, 98, 62]) the fragment the source produces with Python's standard
`base64.b64encode` contains `+` where the URL-safe alphabet the claim
prescribes has `-`, so the two encodings differ. -/
theorem link_fragment_not_urlsafe :
    strtobase64 [97, 98, 62] ≠ specUrlsafeFragment [97, 98, 62] := by decide

/-- C3 (amended): the link of a successful Grant is deterministic in the
connection id — its fragment after "#/client/" is the STANDARD-alphabet
base64 encoding (`base64.b64encode`, `+` and `/`) of the connection-id
bytes followed by the fixed suffix bytes with all trailing `=` stripped,
and re-padding then base64-decoding the fragment yields exactly the
connection-id bytes followed by the suffix bytes; in particular for
connection id "42" the decoded bytes are "42\x00c\x00postgresql". -/
theorem grant_link_fragment (method hostname urlPath : String) (idBytes : List Nat)
    (h : ∀ x ∈ idBytes, x < 256) :
    guacClientUrl method hostname urlPath idBytes =
      method ++ "://" ++ hostname ++ urlPath ++ "#/client/" ++ strtobase64 idBytes ∧
    strtobase64 idBytes = String.mk (stripB64Padding (b64encodeList (idBytes ++ guacSuffixBytes))) ∧
    b64decode (repadB64 (strtobase64 idBytes)) = idBytes ++ guacSuffixBytes := by
  refine ⟨rfl, rfl, ?_⟩
  unfold b64decode repadB64 strtobase64
  simp only [String.toList, String.data_append, List.filter_append]
  rw [filter_pad_replicate, List.append_nil]
  show (b64decodeVals (List.map b64val ((stripB64Padding (b64encodeList (idBytes ++ guacSuffixBytes))).filter (fun ch => ch ≠ '=')))) = idBytes ++ guacSuffixBytes
  rw [filter_stripB64Padding]
  apply b64encode_decode
  intro x hx
  rcases List.mem_append.mp hx with hx | hx
  · exact h x hx
  · exact guacSuffixBytes_bounds x hx

/-- C3 witness: for connection id "42" (bytes [52, 50]) the fragment is
"NDIAYwBwb3N0Z3Jlc3Fs" and decodes back to the id bytes followed by the
fixed suffix. -/
theorem grant_link_fragment_witness :
    b64decode (repadB64 (strtobase64 [52, 50])) = [52, 50] ++ guacSuffixBytes ∧
    strtobase64 [52, 50] = "NDIAYwBwb3N0Z3Jlc3Fs" :=
  ⟨(grant_link_fragment "https" "192.168.3.132:8443" "/" [52, 50] (by decide)).2.2,
   by decide⟩

end VmRepo
